import Mathlib

/-!
Shallow embedding of `src/project/src/services/InsuranceService.ts`.

JavaScript records keyed by string are modelled as association lists
(`List (String × α)`) with last-write-wins assignment (`setAssoc`) and
first-match lookup (`lookupAssoc`); after `setAssoc` keys are unique, and
`createItemHashTable` (which overwrites earlier entries on key collision)
is modelled by searching the reversed list.  JavaScript numbers are
modelled as exact rationals `ℚ`; `Math.round` is `jsRound`.  Optional /
possibly-`undefined` fields are `Option`; a statement that would throw a
`TypeError` at runtime is modelled with `Except`.
-/

/-- Positional `location` payload of an item; its contents are opaque to the
insurance code, which only adds or deletes the property. -/
abbrev ItemLocation := Nat

/-- `upd.Repairable` object: durability values of an item. -/
structure Repairable where
  Durability : ℚ
  MaxDurability : Option ℚ
deriving DecidableEq, Repr

/-- `upd.FaceShield` object: hit count of shielded gear. -/
structure FaceShield where
  Hits : ℚ
deriving DecidableEq, Repr

/-- The `upd` property bag of an item (only the fields this service touches). -/
structure Upd where
  SpawnedInSession : Option Bool := none
  Repairable : Option Repairable := none
  FaceShield : Option FaceShield := none
deriving DecidableEq, Repr

/-- An inventory item (`models/eft/common/tables/IItem`), restricted to the
fields `InsuranceService` reads or writes. -/
structure Item where
  _id : String
  _tpl : String := ""
  parentId : Option String := none
  slotId : Option String := none
  location : Option ItemLocation := none
  upd : Option Upd := none
deriving DecidableEq, Repr

/-- Client-reported wear data for one insured item
(`models/eft/inRaid/IInsuredItemsData`). -/
structure IInsuredItemsData where
  id : String
  durability : Option ℚ := none
  maxDurability : Option ℚ := none
  hits : Option ℚ := none
deriving DecidableEq, Repr

/-- An entry of `pmcData.InsuredItems`: item id plus the trader it was
insured with. -/
structure InsuredItem where
  itemId : String
  tid : String
deriving DecidableEq, Repr

/-- A profile bonus (`pmcData.Bonuses` entry). -/
structure Bonus where
  type : String
  value : ℚ
deriving DecidableEq, Repr

/-- The slice of `IPmcData` used by the service: insured-item references,
the id of the inventory equipment root, and the bonus list. -/
structure PmcProfile where
  InsuredItems : List InsuredItem
  equipment : String := ""
  Bonuses : List Bonus := []
deriving DecidableEq, Repr

/-- `IInsuranceConfig`: the fields read by this service. -/
structure InsuranceConfig where
  returnTimeOverrideSeconds : ℚ := 0
  blacklistedEquipment : List String := []
  insuranceMultiplier : List (String × ℚ) := []
deriving DecidableEq, Repr

/-- The dialogue template lists of a trader that this service draws from. -/
structure DialogueTemplates where
  insuranceStart : List String := []
  insuranceFound : List String := []
  insuranceFailed : List String := []
  insuranceFailedLabs : List String := []
deriving DecidableEq, Repr

/-- A trader's database entry restricted to what `sendInsuredItems` uses:
insurance return bounds, storage time, and the (possibly missing) dialogue
template set. -/
structure TraderEntry where
  min_return_hour : ℚ := 0
  max_return_hour : ℚ := 0
  max_storage_time : ℚ := 0
  dialogue : Option DialogueTemplates := none
deriving DecidableEq, Repr

/-- One element pushed onto `profile.insurance` by `sendInsuredItems`
(message content condensed to the chosen template id). -/
structure InsuranceRecord where
  scheduledTime : ℚ
  traderId : String
  templateId : String
  items : List Item
deriving DecidableEq, Repr

/-- One element of `equipmentToSendToPlayer` built by `storeLostGear`. -/
structure GearToSend where
  itemToReturnToPlayer : Item
  traderId : String
  sessionID : String
deriving DecidableEq, Repr

/-- First-match lookup in an association list (JS property read). -/
def lookupAssoc {α : Type} (l : List (String × α)) (k : String) : Option α :=
  (l.find? (fun p => p.1 == k)).map Prod.snd

/-- Assignment in an association list (JS property write): replace the
existing binding in place, or append a fresh one. -/
def setAssoc {α : Type} : List (String × α) → String → α → List (String × α)
  | [], k, v => [(k, v)]
  | (k', v') :: rest, k, v =>
      if k' == k then (k, v) :: rest else (k', v') :: setAssoc rest k v

/-- `createItemHashTable`: a record keyed by `_id` where a later item with
the same id overwrites an earlier one; modelled as its lookup function
(search the reversed list, so the last write wins). -/
def createItemHashTable (items : List Item) (id : String) : Option Item :=
  items.reverse.find? (fun item => item._id == id)

/-- The process-wide registry `insured: Record<string, Record<string, Item[]>>`. -/
abbrev Registry := List (String × List (String × List Item))

/-- `insuranceExists`. -/
def insuranceExists (insured : Registry) (sessionId : String) : Bool :=
  (lookupAssoc insured sessionId).isSome

/-- `getInsurance`: a plain property read, `undefined` when absent. -/
def getInsurance (insured : Registry) (sessionId : String) :
    Option (List (String × List Item)) :=
  lookupAssoc insured sessionId

/-- `getInsuranceItems`: reads `insured[sessionId][traderId]`; when
`insured[sessionId]` is `undefined` the inner property read throws a
`TypeError`, modelled as `Except.error`. -/
def getInsuranceItems (insured : Registry) (sessionId traderId : String) :
    Except Unit (Option (List Item)) :=
  match lookupAssoc insured sessionId with
  | none => .error ()
  | some traderMap => .ok (lookupAssoc traderMap traderId)

/-- `resetInsurance`: `insured[sessionId] = {}`. -/
def resetInsurance (insured : Registry) (sessionId : String) : Registry :=
  setAssoc insured sessionId []

/-- `Math.round` on a JS number: round half toward positive infinity. -/
def jsRound (x : ℚ) : ℤ := ⌊x + 1 / 2⌋

/-- JavaScript's `toLowerCase()`, modelled as lowering every character
(ASCII suffices for the location names this service compares). -/
def jsToLowerCase (s : String) : String :=
  ⟨s.data.map Char.toLower⟩

/-- Case-insensitive string comparison, as performed by the source via
`toLowerCase()`. -/
def caseInsensitiveEq (a b : String) : Bool :=
  jsToLowerCase a == jsToLowerCase b

/-- `sendLostInsuranceMessage`: picks a random template id out of Prapor's
`insuranceFailedLabs` list when `locationName.toLowerCase() === "laboratory"`
and out of `insuranceFailed` otherwise; the random draw is the injected
`pick` (the source's `randomUtil.getArrayValue`).  The chosen id is what is
handed to the mail collaborator. -/
def sendLostInsuranceMessage (praporDialogue : DialogueTemplates)
    (pick : List String → String) (locationName : String) : String :=
  if jsToLowerCase locationName == "laboratory" then
    pick praporDialogue.insuranceFailedLabs
  else
    pick praporDialogue.insuranceFailed

/-- `removeLocationProperty`: for every item of the trader's bucket whose
parent is not found in the bucket (the `find` ranges over the whole array,
the item itself included), set `slotId` to `"hideout"` and delete
`location`.  The in-place loop only mutates `slotId`/`location`, never the
`_id`/`parentId` fields the `find` predicate reads, so it equals this pure
map over the original list. -/
def removeLocationProperty (insuredItems : List Item) : List Item :=
  insuredItems.map fun insuredItem =>
    match insuredItems.find? (fun x => some x._id == insuredItem.parentId) with
    | some _ => insuredItem
    | none => { insuredItem with slotId := some "hideout", location := none }

/-- `getInsuranceReturnTimestamp`: override path, else
`now + draw * (1 - |bonus| / 100)` where `draw` is the injected result of
`randomUtil.getInt(min_return_hour * 3600, max_return_hour * 3600)` and the
bonus is the first `"InsuranceReturnTime"` entry of `pmcData.Bonuses`. -/
def getInsuranceReturnTimestamp (cfg : InsuranceConfig) (now : ℚ)
    (bonuses : List Bonus) (draw : ℤ) : ℚ :=
  if cfg.returnTimeOverrideSeconds > 0 then
    now + cfg.returnTimeOverrideSeconds
  else
    let insuranceReturnTimeBonus := bonuses.find? (fun b => b.type == "InsuranceReturnTime")
    let insuranceReturnTimeBonusPercent : ℚ :=
      1 - (match insuranceReturnTimeBonus with
           | some b => |b.value|
           | none => 0) / 100
    now + draw * insuranceReturnTimeBonusPercent

/-- The pocket-slot list of `updateSlotIdValue`. -/
def pocketSlots : List String := ["pocket1", "pocket2", "pocket3", "pocket4"]

/-- First statement of `updateSlotIdValue`: force `slotId` to `"hideout"`
when it is absent or one of the four pocket slots. -/
def updateSlotIdPocketRule (itemToReturn : Item) : Item :=
  if itemToReturn.slotId.isNone ||
      (match itemToReturn.slotId with
       | some s => pocketSlots.contains s
       | none => false) then
    { itemToReturn with slotId := some "hideout" }
  else itemToReturn

/-- Second statement of `updateSlotIdValue`: force `slotId` to `"hideout"`
when the item's parent is the inventory equipment root. -/
def updateSlotIdRootRule (playerBaseInventoryEquipmentId : String)
    (itemToReturn : Item) : Item :=
  if itemToReturn.parentId = some playerBaseInventoryEquipmentId then
    { itemToReturn with slotId := some "hideout" }
  else itemToReturn

/-- `updateSlotIdValue`: the two sequential rules above. -/
def updateSlotIdValue (playerBaseInventoryEquipmentId : String)
    (itemToReturn : Item) : Item :=
  updateSlotIdRootRule playerBaseInventoryEquipmentId
    (updateSlotIdPocketRule itemToReturn)

/-- The `insuredItemFromClient?.durability` truthiness test of the source:
client data present with a nonzero durability. -/
def clientDurabilityTruthy (client : Option IInsuredItemsData) : Bool :=
  match client with
  | some c => match c.durability with
              | some d => d != 0
              | none => false
  | none => false

/-- The `insuredItemFromClient?.hits` truthiness test of the source. -/
def clientHitsTruthy (client : Option IInsuredItemsData) : Bool :=
  match client with
  | some c => match c.hits with
              | some h => h != 0
              | none => false
  | none => false

/-- Durability-merge block of `getInsuredItemDetails`: overwrite (or create)
`upd.Repairable` from the client-reported values.  Touches only `upd`. -/
def mergeClientDurability (client : Option IInsuredItemsData) (itemToReturn : Item) : Item :=
  if clientDurabilityTruthy client then
    match client with
    | some c =>
        let d := c.durability.getD 0
        let u := itemToReturn.upd.getD {}
        { itemToReturn with
          upd := some { u with Repairable := some { Durability := d, MaxDurability := c.maxDurability } } }
    | none => itemToReturn
  else itemToReturn

/-- FaceShield-merge block of `getInsuredItemDetails`: overwrite (or create)
`upd.FaceShield.Hits` from the client-reported value.  Touches only `upd`. -/
def mergeClientFaceShield (client : Option IInsuredItemsData) (itemToReturn : Item) : Item :=
  if clientHitsTruthy client then
    match client with
    | some c =>
        let h := c.hits.getD 0
        let u := itemToReturn.upd.getD {}
        { itemToReturn with upd := some { u with FaceShield := some { Hits := h } } }
    | none => itemToReturn
  else itemToReturn

/-- The `if (!itemToReturn.upd)` block of `getInsuredItemDetails`: add an
empty `upd` object when absent. -/
def ensureUpd (itemToReturn : Item) : Item :=
  if itemToReturn.upd.isNone then { itemToReturn with upd := some {} } else itemToReturn

/-- The location-removal block of `getInsuredItemDetails`: delete the
`location` property when the item sits in `"hideout"` and has one. -/
def removeHideoutLocation (itemToReturn : Item) : Item :=
  if itemToReturn.slotId = some "hideout" ∧ itemToReturn.location.isSome then
    { itemToReturn with location := none }
  else itemToReturn

/-- The found-in-raid block of `getInsuredItemDetails`: set
`upd.SpawnedInSession` to `false` when the property exists. -/
def clearSpawnedInSession (itemToReturn : Item) : Item :=
  match itemToReturn.upd with
  | some u =>
      if u.SpawnedInSession.isSome then
        { itemToReturn with upd := some { u with SpawnedInSession := some false } }
      else itemToReturn
  | none => itemToReturn

/-- `getInsuredItemDetails`: clone the pre-raid item, ensure `upd`, fix the
`slotId`, drop `location` when the item was moved to `"hideout"`, clear the
`SpawnedInSession` flag when present, then merge client wear data — the
source's statement blocks, composed in order. -/
def getInsuredItemDetails (playerBaseInventoryEquipmentId : String)
    (preRaidItem : Item) (insuredItemFromClient : Option IInsuredItemsData) : Item :=
  mergeClientFaceShield insuredItemFromClient
    (mergeClientDurability insuredItemFromClient
      (clearSpawnedInSession
        (removeHideoutLocation
          (updateSlotIdValue playerBaseInventoryEquipmentId
            (ensureUpd preRaidItem)))))

/-- The blacklist test of `storeLostGear`:
`insuranceConfig.blacklistedEquipment.includes(preRaidItem.slotId)`
(`includes(undefined)` is false for a string blacklist). -/
def slotBlacklisted (cfg : InsuranceConfig) (preRaidItem : Item) : Bool :=
  match preRaidItem.slotId with
  | some s => cfg.blacklistedEquipment.contains s
  | none => false

/-- `offraidData.insurance?.find(x => x.id === insuredItem.itemId)`. -/
def clientInsuranceFor (offraidInsurance : Option (List IInsuredItemsData))
    (itemId : String) : Option IInsuredItemsData :=
  offraidInsurance.bind (fun l => l.find? (fun x => x.id == itemId))

/-- The first loop of `storeLostGear`: build `equipmentToSendToPlayer` by
filtering the profile's `InsuredItems` through the pre-raid table, the
equipment blacklist, and the lost-or-died test. -/
def storeLostGearCandidates (cfg : InsuranceConfig) (pmcData : PmcProfile)
    (offraidItems : List Item) (offraidInsurance : Option (List IInsuredItemsData))
    (preRaidGear : List Item) (sessionID : String) (playerDied : Bool) :
    List GearToSend :=
  pmcData.InsuredItems.filterMap fun insuredItem =>
    match createItemHashTable preRaidGear insuredItem.itemId with
    | none => none
    | some preRaidItem =>
        if slotBlacklisted cfg preRaidItem then none
        else if (createItemHashTable offraidItems insuredItem.itemId).isNone || playerDied then
          some { itemToReturnToPlayer :=
                   getInsuredItemDetails pmcData.equipment preRaidItem
                     (clientInsuranceFor offraidInsurance insuredItem.itemId),
                 traderId := insuredItem.tid,
                 sessionID := sessionID }
        else none

/-- `addGearToSend`: ensure the session and trader buckets exist in the
registry, push the item, and filter the processed reference out of the
profile's `InsuredItems`. -/
def addGearToSend (insured : Registry) (pmcData : PmcProfile) (gear : GearToSend) :
    Registry × PmcProfile :=
  let sessionId := gear.sessionID
  let traderId := gear.traderId
  let itemToReturnToPlayer := gear.itemToReturnToPlayer
  let insured :=
    if insuranceExists insured sessionId then insured else resetInsurance insured sessionId
  let bucket := (lookupAssoc insured sessionId).getD []
  let bucket :=
    if (lookupAssoc bucket traderId).isSome then bucket else setAssoc bucket traderId []
  let bucket :=
    setAssoc bucket traderId ((lookupAssoc bucket traderId).getD [] ++ [itemToReturnToPlayer])
  let insured := setAssoc insured sessionId bucket
  (insured,
   { pmcData with
     InsuredItems := pmcData.InsuredItems.filter
       (fun item => item.itemId != itemToReturnToPlayer._id) })

/-- `storeLostGear`: build the candidate list, then run `addGearToSend` on
each candidate, threading the registry and the profile. -/
def storeLostGear (cfg : InsuranceConfig) (insured : Registry) (pmcData : PmcProfile)
    (offraidItems : List Item) (offraidInsurance : Option (List IInsuredItemsData))
    (preRaidGear : List Item) (sessionID : String) (playerDied : Bool) :
    Registry × PmcProfile :=
  (storeLostGearCandidates cfg pmcData offraidItems offraidInsurance preRaidGear
      sessionID playerDied).foldl
    (fun st gear => addGearToSend st.1 st.2 gear) (insured, pmcData)

/-- `getPremium`: handbook price times the configured multiplier (`0.3` with
a warning when the configured value is missing or zero, both falsy in JS),
discounted by the loyalty coefficient only when it is positive, then
`Math.round`ed.  Returns the price and whether the warning was logged. -/
def getPremium (cfg : InsuranceConfig) (traderId : String)
    (staticItemPrice : ℚ) (insurance_price_coef : ℚ) : ℤ × Bool :=
  let configured := lookupAssoc cfg.insuranceMultiplier traderId
  let falsy := match configured with
               | some v => v == 0
               | none => true
  let insuranceMultiplier := if falsy then (3 : ℚ) / 10 else configured.getD 0
  let pricePremium := staticItemPrice * insuranceMultiplier
  let coef := insurance_price_coef
  let pricePremium := if coef > 0 then pricePremium * (1 - coef / 100) else pricePremium
  (jsRound pricePremium, falsy)

/-- Dialogue-template lookup performed inside the `sendInsuredItems` loop:
`databaseServer.getTables().traders[traderId].dialogue`, where either the
trader entry or its `dialogue` property may be missing. -/
def dialogueOf (traders : List (String × TraderEntry)) (traderId : String) :
    Option DialogueTemplates :=
  (lookupAssoc traders traderId).bind TraderEntry.dialogue

/-- `sendInsuredItems`: walk the session's registry buckets in order; for
each trader compose the messages, normalize the bucket with
`removeLocationProperty`, and append an `InsuranceRecord` to the profile's
`insurance` list; finally `resetInsurance` empties the session's buckets.
A missing trader entry or missing `dialogue` property makes the original
throw a `TypeError` (`dialogueTemplates.insuranceStart` on `undefined`):
modelled as `Except.error` carrying the state at the throw point — the
records pushed so far and the registry buckets, which are NOT cleared. -/
def sendInsuredItems (traders : List (String × TraderEntry)) (cfg : InsuranceConfig)
    (now : ℚ) (bonuses : List Bonus) (pick : List String → String) (draw : ℤ) :
    List (String × List Item) → List InsuranceRecord →
    Except (List InsuranceRecord × List (String × List Item))
      (List InsuranceRecord × List (String × List Item))
  | [], insuranceList => .ok (insuranceList, [])
  | (traderId, items) :: rest, insuranceList =>
      match dialogueOf traders traderId with
      | none => .error (insuranceList, (traderId, items) :: rest)
      | some dialogueTemplates =>
          let insuranceReturnTimestamp := getInsuranceReturnTimestamp cfg now bonuses draw
          let items2 := removeLocationProperty items
          let record : InsuranceRecord :=
            { scheduledTime := insuranceReturnTimestamp,
              traderId := traderId,
              templateId := pick dialogueTemplates.insuranceFound,
              items := items2 }
          match sendInsuredItems traders cfg now bonuses pick draw rest
              (insuranceList ++ [record]) with
          | .ok res => .ok res
          | .error (ins', rest') => .error (ins', (traderId, items2) :: rest')

/-- Concrete fixture: an item that is its own parent (corrupt but
representable inventory data). -/
def selfParentItem : Item :=
  { _id := "a", parentId := some "a", slotId := some "mod", location := some 1 }

/-- Concrete fixture: a root bag item. -/
def bagItem : Item :=
  { _id := "bag", parentId := none, slotId := some "backpack", location := some 3 }

/-- Concrete fixture: an item contained in `bagItem`. -/
def ammoItem : Item :=
  { _id := "ammo", parentId := some "bag", slotId := some "main", location := some 2 }

/-- Concrete fixture: a pre-raid pocket item worn under the equipment root. -/
def preItemA : Item :=
  { _id := "a", parentId := some "equip", slotId := some "pocket1", location := some 0 }

/-- Concrete fixture: the pre-raid gear list containing `preItemA`. -/
def preGearA : List Item := [preItemA]

/-- Concrete fixture: the insured-item reference for `preItemA`. -/
def insuredA : InsuredItem := { itemId := "a", tid := "prapor" }

/-- Concrete fixture: a profile insuring exactly `preItemA`. -/
def pmcA : PmcProfile := { InsuredItems := [insuredA], equipment := "equip" }

/-- Concrete fixture: a trader database entry without dialogue templates. -/
def noDialogueTrader : TraderEntry := { min_return_hour := 1, max_return_hour := 2 }

/-- Concrete fixture: trader tables holding only `noDialogueTrader`. -/
def tradersND : List (String × TraderEntry) := [("prapor", noDialogueTrader)]

/-- Concrete fixture: a registry bucket with one item stored for that trader. -/
def bucketND : List (String × List Item) := [("prapor", [preItemA])]

/-- Concrete fixture: a deterministic stand-in for `randomUtil.getArrayValue`. -/
def pickHead : List String → String := fun l => l.headD ""

theorem ensureUpd_fields (it : Item) :
    (ensureUpd it)._id = it._id ∧ (ensureUpd it).parentId = it.parentId ∧
    (ensureUpd it).slotId = it.slotId ∧ (ensureUpd it).location = it.location := by
  unfold ensureUpd
  split <;> exact ⟨rfl, rfl, rfl, rfl⟩

theorem updateSlotIdPocketRule_fields (it : Item) :
    (updateSlotIdPocketRule it)._id = it._id ∧
    (updateSlotIdPocketRule it).parentId = it.parentId ∧
    (updateSlotIdPocketRule it).location = it.location ∧
    (updateSlotIdPocketRule it).upd = it.upd := by
  unfold updateSlotIdPocketRule
  split <;> exact ⟨rfl, rfl, rfl, rfl⟩

theorem updateSlotIdRootRule_fields (e : String) (it : Item) :
    (updateSlotIdRootRule e it)._id = it._id ∧
    (updateSlotIdRootRule e it).parentId = it.parentId ∧
    (updateSlotIdRootRule e it).location = it.location ∧
    (updateSlotIdRootRule e it).upd = it.upd := by
  unfold updateSlotIdRootRule
  split <;> exact ⟨rfl, rfl, rfl, rfl⟩

theorem updateSlotIdValue_fields (e : String) (it : Item) :
    (updateSlotIdValue e it)._id = it._id ∧
    (updateSlotIdValue e it).parentId = it.parentId ∧
    (updateSlotIdValue e it).location = it.location ∧
    (updateSlotIdValue e it).upd = it.upd := by
  unfold updateSlotIdValue
  obtain ⟨h1, h2, h3, h4⟩ := updateSlotIdRootRule_fields e (updateSlotIdPocketRule it)
  obtain ⟨g1, g2, g3, g4⟩ := updateSlotIdPocketRule_fields it
  exact ⟨h1.trans g1, h2.trans g2, h3.trans g3, h4.trans g4⟩

theorem removeHideoutLocation_fields (it : Item) :
    (removeHideoutLocation it)._id = it._id ∧
    (removeHideoutLocation it).parentId = it.parentId ∧
    (removeHideoutLocation it).slotId = it.slotId ∧
    (removeHideoutLocation it).upd = it.upd := by
  unfold removeHideoutLocation
  split <;> exact ⟨rfl, rfl, rfl, rfl⟩

theorem clearSpawnedInSession_fields (it : Item) :
    (clearSpawnedInSession it)._id = it._id ∧
    (clearSpawnedInSession it).parentId = it.parentId ∧
    (clearSpawnedInSession it).slotId = it.slotId ∧
    (clearSpawnedInSession it).location = it.location := by
  unfold clearSpawnedInSession
  split
  · split <;> exact ⟨rfl, rfl, rfl, rfl⟩
  · exact ⟨rfl, rfl, rfl, rfl⟩

theorem mergeClientDurability_fields (c : Option IInsuredItemsData) (it : Item) :
    (mergeClientDurability c it)._id = it._id ∧
    (mergeClientDurability c it).parentId = it.parentId ∧
    (mergeClientDurability c it).slotId = it.slotId ∧
    (mergeClientDurability c it).location = it.location := by
  unfold mergeClientDurability
  split
  · split <;> exact ⟨rfl, rfl, rfl, rfl⟩
  · exact ⟨rfl, rfl, rfl, rfl⟩

theorem mergeClientFaceShield_fields (c : Option IInsuredItemsData) (it : Item) :
    (mergeClientFaceShield c it)._id = it._id ∧
    (mergeClientFaceShield c it).parentId = it.parentId ∧
    (mergeClientFaceShield c it).slotId = it.slotId ∧
    (mergeClientFaceShield c it).location = it.location := by
  unfold mergeClientFaceShield
  split
  · split <;> exact ⟨rfl, rfl, rfl, rfl⟩
  · exact ⟨rfl, rfl, rfl, rfl⟩

theorem updateSlotIdPocketRule_slot (it : Item) :
    ∃ s, (updateSlotIdPocketRule it).slotId = some s ∧
      pocketSlots.contains s = false := by
  unfold updateSlotIdPocketRule
  split
  · exact ⟨"hideout", rfl, by decide⟩
  · rename_i h
    cases hs : it.slotId with
    | none => exact absurd (by simp [hs]) h
    | some s =>
        refine ⟨s, rfl, ?_⟩
        rw [Bool.not_eq_true] at h
        simpa [hs] using h

theorem updateSlotIdPocketRule_fixed (it : Item) (s : String)
    (h1 : it.slotId = some s) (h2 : pocketSlots.contains s = false) :
    updateSlotIdPocketRule it = it := by
  unfold updateSlotIdPocketRule
  rw [if_neg]
  simp [h1]
  simpa using h2

theorem updateSlotIdPocketRule_slot_congr (a b : Item) (hs : a.slotId = b.slotId) :
    (updateSlotIdPocketRule a).slotId = (updateSlotIdPocketRule b).slotId := by
  unfold updateSlotIdPocketRule
  rw [hs]
  split <;> simp [hs]

theorem updateSlotIdRootRule_slot_congr (e : String) (a b : Item)
    (hs : a.slotId = b.slotId) (hp : a.parentId = b.parentId) :
    (updateSlotIdRootRule e a).slotId = (updateSlotIdRootRule e b).slotId := by
  unfold updateSlotIdRootRule
  rw [hp]
  split <;> simp [hs]

theorem updateSlotIdValue_slot_congr (e : String) (a b : Item)
    (hs : a.slotId = b.slotId) (hp : a.parentId = b.parentId) :
    (updateSlotIdValue e a).slotId = (updateSlotIdValue e b).slotId := by
  unfold updateSlotIdValue
  apply updateSlotIdRootRule_slot_congr
  · exact updateSlotIdPocketRule_slot_congr a b hs
  · exact ((updateSlotIdPocketRule_fields a).2.1).trans
      (hp.trans ((updateSlotIdPocketRule_fields b).2.1).symm)

theorem updateSlotIdValue_slot (e : String) (it : Item) :
    ∃ s, (updateSlotIdValue e it).slotId = some s ∧
      pocketSlots.contains s = false := by
  obtain ⟨s, hs, hns⟩ := updateSlotIdPocketRule_slot it
  unfold updateSlotIdValue updateSlotIdRootRule
  split
  · exact ⟨"hideout", rfl, by decide⟩
  · exact ⟨s, hs, hns⟩

theorem updateSlotIdRootRule_slot_idem (e : String) (it : Item) :
    (updateSlotIdRootRule e (updateSlotIdRootRule e it)).slotId
      = (updateSlotIdRootRule e it).slotId := by
  unfold updateSlotIdRootRule
  by_cases hp : it.parentId = some e <;> simp [hp]

theorem updateSlotIdValue_slot_idem (e : String) (it : Item) :
    (updateSlotIdValue e (updateSlotIdValue e it)).slotId
      = (updateSlotIdValue e it).slotId := by
  obtain ⟨s, hs, hns⟩ := updateSlotIdValue_slot e it
  have hfix : updateSlotIdPocketRule (updateSlotIdValue e it)
      = updateSlotIdValue e it :=
    updateSlotIdPocketRule_fixed _ s hs hns
  unfold updateSlotIdValue at hfix ⊢
  rw [hfix]
  exact updateSlotIdRootRule_slot_idem e (updateSlotIdPocketRule it)

theorem removeHideoutLocation_inv (it : Item) :
    (removeHideoutLocation it).slotId = some "hideout" →
    (removeHideoutLocation it).location = none := by
  unfold removeHideoutLocation
  split
  · intro _
    rfl
  · rename_i h
    intro hs
    cases hl : it.location with
    | none => rfl
    | some l => exact absurd ⟨hs, by rw [hl]; rfl⟩ h

theorem removeHideoutLocation_noop (it : Item)
    (h : it.slotId = some "hideout" → it.location = none) :
    removeHideoutLocation it = it := by
  unfold removeHideoutLocation
  rw [if_neg]
  rintro ⟨h1, h2⟩
  rw [h h1] at h2
  exact Bool.false_ne_true h2

/-- C6: the normalization of `getInsuredItemDetails` is idempotent on the
`slotId` and `location` fields: re-normalizing its own output (with the same
client wear data) leaves both fields unchanged. -/
theorem getInsuredItemDetails_slot_location_idem (e : String) (x : Item)
    (c : Option IInsuredItemsData) :
    (getInsuredItemDetails e (getInsuredItemDetails e x c) c).slotId
      = (getInsuredItemDetails e x c).slotId ∧
    (getInsuredItemDetails e (getInsuredItemDetails e x c) c).location
      = (getInsuredItemDetails e x c).location := by
  have gslot : ∀ z : Item, (getInsuredItemDetails e z c).slotId
      = (updateSlotIdValue e (ensureUpd z)).slotId := by
    intro z
    unfold getInsuredItemDetails
    rw [(mergeClientFaceShield_fields c _).2.2.1,
        (mergeClientDurability_fields c _).2.2.1,
        (clearSpawnedInSession_fields _).2.2.1,
        (removeHideoutLocation_fields _).2.2.1]
  have gloc : ∀ z : Item, (getInsuredItemDetails e z c).location
      = (removeHideoutLocation (updateSlotIdValue e (ensureUpd z))).location := by
    intro z
    unfold getInsuredItemDetails
    rw [(mergeClientFaceShield_fields c _).2.2.2,
        (mergeClientDurability_fields c _).2.2.2,
        (clearSpawnedInSession_fields _).2.2.2]
  have gpar : ∀ z : Item, (getInsuredItemDetails e z c).parentId = z.parentId := by
    intro z
    unfold getInsuredItemDetails
    rw [(mergeClientFaceShield_fields c _).2.1,
        (mergeClientDurability_fields c _).2.1,
        (clearSpawnedInSession_fields _).2.1,
        (removeHideoutLocation_fields _).2.1,
        (updateSlotIdValue_fields e _).2.1,
        (ensureUpd_fields _).2.1]
  have yinv : (getInsuredItemDetails e x c).slotId = some "hideout" →
      (getInsuredItemDetails e x c).location = none := by
    intro hs
    rw [gloc x]
    apply removeHideoutLocation_inv
    rw [(removeHideoutLocation_fields _).2.2.1]
    rw [gslot x] at hs
    exact hs
  have w2slot : (updateSlotIdValue e
        (ensureUpd (getInsuredItemDetails e x c))).slotId
      = (getInsuredItemDetails e x c).slotId := by
    have h1 : (updateSlotIdValue e
          (ensureUpd (getInsuredItemDetails e x c))).slotId
        = (updateSlotIdValue e (getInsuredItemDetails e x c)).slotId :=
      updateSlotIdValue_slot_congr e _ _ (ensureUpd_fields _).2.2.1
        (ensureUpd_fields _).2.1
    have h2 : (updateSlotIdValue e (getInsuredItemDetails e x c)).slotId
        = (updateSlotIdValue e (updateSlotIdValue e (ensureUpd x))).slotId := by
      apply updateSlotIdValue_slot_congr
      · exact gslot x
      · rw [gpar x, (updateSlotIdValue_fields e _).2.1, (ensureUpd_fields _).2.1]
    rw [h1, h2, updateSlotIdValue_slot_idem, ← gslot x]
  have w2loc : (updateSlotIdValue e
        (ensureUpd (getInsuredItemDetails e x c))).location
      = (getInsuredItemDetails e x c).location := by
    rw [(updateSlotIdValue_fields e _).2.2.1, (ensureUpd_fields _).2.2.2]
  have hnoop : removeHideoutLocation (updateSlotIdValue e
        (ensureUpd (getInsuredItemDetails e x c)))
      = updateSlotIdValue e (ensureUpd (getInsuredItemDetails e x c)) := by
    apply removeHideoutLocation_noop
    intro hs
    rw [w2loc]
    apply yinv
    rw [← w2slot]
    exact hs
  constructor
  · rw [gslot (getInsuredItemDetails e x c), w2slot]
  · rw [gloc (getInsuredItemDetails e x c), hnoop, w2loc]

/-- C3: with a positive `returnTimeOverrideSeconds` of `N`,
`getInsuranceReturnTimestamp` returns exactly `now + N`, whatever the
profile's bonuses and whatever random draw the trader's return-hour bounds
produced. -/
theorem override_returns_now_plus_override (cfg : InsuranceConfig) (now : ℚ)
    (bonuses : List Bonus) (draw : ℤ) (h : 0 < cfg.returnTimeOverrideSeconds) :
    getInsuranceReturnTimestamp cfg now bonuses draw
      = now + cfg.returnTimeOverrideSeconds := by
  simp [getInsuranceReturnTimestamp, h]

/-- Witness for C3 at a concrete configuration. -/
theorem override_returns_now_plus_override_witness :
    getInsuranceReturnTimestamp
        { returnTimeOverrideSeconds := 5 } 100
        [{ type := "InsuranceReturnTime", value := 50 }] 7 = 105 := by
  rw [override_returns_now_plus_override
    { returnTimeOverrideSeconds := 5 } 100
    [{ type := "InsuranceReturnTime", value := 50 }] 7 (by norm_num)]
  norm_num

/-- C4: with override `0` and no `InsuranceReturnTime` bonus (or one of
value `0`), any injected draw inside `[min*3600, max*3600]` yields a return
timestamp inside `[now + min*3600, now + max*3600]`. -/
theorem no_bonus_timestamp_in_range (cfg : InsuranceConfig) (now : ℚ)
    (bonuses : List Bonus) (draw : ℤ) (minHour maxHour : ℚ)
    (hov : cfg.returnTimeOverrideSeconds = 0)
    (hb : bonuses.find? (fun b => b.type == "InsuranceReturnTime") = none ∨
      ∃ b, bonuses.find? (fun b => b.type == "InsuranceReturnTime") = some b ∧
        b.value = 0)
    (hlo : minHour * 3600 ≤ (draw : ℚ)) (hhi : (draw : ℚ) ≤ maxHour * 3600) :
    now + minHour * 3600 ≤ getInsuranceReturnTimestamp cfg now bonuses draw ∧
    getInsuranceReturnTimestamp cfg now bonuses draw ≤ now + maxHour * 3600 := by
  unfold getInsuranceReturnTimestamp
  rw [if_neg (by rw [hov]; exact lt_irrefl 0)]
  rcases hb with h | ⟨b, hfind, hval⟩
  · rw [h]
    constructor <;> simp <;> linarith
  · rw [hfind]
    constructor <;> simp [hval] <;> linarith

/-- Witness for C4 at a concrete configuration: min 1h, max 2h, draw 5000s. -/
theorem no_bonus_timestamp_in_range_witness :
    (0 : ℚ) + 1 * 3600 ≤ getInsuranceReturnTimestamp {} 0 [] 5000 ∧
    getInsuranceReturnTimestamp {} 0 [] 5000 ≤ (0 : ℚ) + 2 * 3600 :=
  no_bonus_timestamp_in_range {} 0 [] 5000 1 2 rfl (Or.inl rfl)
    (by norm_num) (by norm_num)

/-- C5 counterexample: a multiplier of `0` IS configured for the trader and
the loyalty coefficient `10` is positive, so the claim's formula demands
`round(1000 * 0 * (1 - 10/100)) = 0`; but `0` is falsy in JavaScript, so
`getPremium` falls back to `0.3` (with the warning) and returns `270`. -/
theorem getPremium_zero_multiplier_cex :
    lookupAssoc (InsuranceConfig.insuranceMultiplier
        { insuranceMultiplier := [("prapor", 0)] }) "prapor" = some 0 ∧
    (0 : ℚ) < 10 ∧
    (getPremium { insuranceMultiplier := [("prapor", 0)] } "prapor" 1000 10).1
      ≠ jsRound (1000 * 0 * (1 - 10 / 100)) ∧
    (getPremium { insuranceMultiplier := [("prapor", 0)] } "prapor" 1000 10).1
      = 270 := by
  refine ⟨rfl, by norm_num, ?_, ?_⟩ <;>
    · unfold getPremium jsRound lookupAssoc
      norm_num [List.find?]

/-- C5 (amended): `getPremium` returns
`round(basePrice * multiplier * (1 - coef/100))` when a NONZERO multiplier
is configured and the loyalty `insurance_price_coef` is positive, applies no
discount when the coefficient is zero or negative, and uses the default
multiplier `0.3` with a logged warning when the configured multiplier is
missing OR zero (both falsy); basePrice 1000, multiplier 0.3, discount 10
yield 270 (see the witness). -/
theorem getPremium_spec (cfg : InsuranceConfig) (traderId : String)
    (staticItemPrice coef m : ℚ) :
    (lookupAssoc cfg.insuranceMultiplier traderId = some m → m ≠ 0 → 0 < coef →
      getPremium cfg traderId staticItemPrice coef
        = (jsRound (staticItemPrice * m * (1 - coef / 100)), false)) ∧
    (lookupAssoc cfg.insuranceMultiplier traderId = some m → m ≠ 0 → coef ≤ 0 →
      getPremium cfg traderId staticItemPrice coef
        = (jsRound (staticItemPrice * m), false)) ∧
    (lookupAssoc cfg.insuranceMultiplier traderId = none ∨
        lookupAssoc cfg.insuranceMultiplier traderId = some 0 → 0 < coef →
      getPremium cfg traderId staticItemPrice coef
        = (jsRound (staticItemPrice * (3 / 10) * (1 - coef / 100)), true)) ∧
    (lookupAssoc cfg.insuranceMultiplier traderId = none ∨
        lookupAssoc cfg.insuranceMultiplier traderId = some 0 → coef ≤ 0 →
      getPremium cfg traderId staticItemPrice coef
        = (jsRound (staticItemPrice * (3 / 10)), true)) := by
  unfold getPremium
  refine ⟨?_, ?_, ?_, ?_⟩
  · intro hm hne hc
    rw [hm]
    simp [hne, hc, mul_assoc]
  · intro hm hne hc
    rw [hm]
    simp [hne, not_lt.mpr hc]
  · intro hm hc
    rcases hm with hm | hm <;> rw [hm] <;> simp [hc, mul_assoc]
  · intro hm hc
    rcases hm with hm | hm <;> rw [hm] <;> simp [not_lt.mpr hc]

/-- Witness for C5 (amended): the spec's own numeric example, via the
nonzero-multiplier/positive-coefficient case of the theorem. -/
theorem getPremium_spec_witness :
    (getPremium { insuranceMultiplier := [("prapor", 3 / 10)] } "prapor" 1000 10).1
      = 270 := by
  have h := (getPremium_spec { insuranceMultiplier := [("prapor", 3 / 10)] }
      "prapor" 1000 10 (3 / 10)).1 rfl (by norm_num) (by norm_num)
  rw [h]
  unfold jsRound
  norm_num

/-- C7: `sendLostInsuranceMessage` draws the template from Prapor's
`insuranceFailedLabs` list exactly when the location name is
case-insensitively `"laboratory"`, and from `insuranceFailed` otherwise. -/
theorem lost_insurance_template_choice (praporDialogue : DialogueTemplates)
    (pick : List String → String) (locationName : String) :
    (caseInsensitiveEq locationName "laboratory" = true ∧
      sendLostInsuranceMessage praporDialogue pick locationName
        = pick praporDialogue.insuranceFailedLabs) ∨
    (caseInsensitiveEq locationName "laboratory" = false ∧
      sendLostInsuranceMessage praporDialogue pick locationName
        = pick praporDialogue.insuranceFailed) := by
  have hlab : jsToLowerCase "laboratory" = "laboratory" := rfl
  unfold sendLostInsuranceMessage caseInsensitiveEq
  rw [hlab]
  by_cases h : jsToLowerCase locationName == "laboratory"
  · exact Or.inl ⟨h, by rw [if_pos h]⟩
  · exact Or.inr ⟨by simpa using h, by rw [if_neg h]⟩

/-- C9 counterexample: with no registry entry for the session,
`getInsurance` returns `undefined` without error, but `getInsuranceItems`
reads a property of `undefined` and throws a `TypeError` — it is NOT safe
for any caller. -/
theorem getInsuranceItems_missing_session_cex :
    getInsurance [] "sessionA" = none ∧
    getInsuranceItems [] "sessionA" "traderB" = .error () :=
  ⟨rfl, rfl⟩

/-- C9 (amended): `getInsurance` is total for any session id (it returns the
stored trader map or `undefined`); `getInsuranceItems` returns without error
exactly when a registry entry exists for the session id, and throws
otherwise. -/
theorem registry_accessor_safety (insured : Registry) (sessionId traderId : String) :
    getInsurance insured sessionId = lookupAssoc insured sessionId ∧
    (getInsuranceItems insured sessionId traderId).isOk
      = (getInsurance insured sessionId).isSome := by
  refine ⟨rfl, ?_⟩
  unfold getInsuranceItems getInsurance
  cases lookupAssoc insured sessionId <;> rfl

/-- C10 counterexample: an item that is its own parent.  Its `parentId`
equals the `_id` of no OTHER item of the bucket, so the claim demands
`slotId = "hideout"` and no location; but the source's `find` ranges over
the whole array including the item itself, finds a "parent", and leaves the
item untouched. -/
theorem removeLocationProperty_self_parent_cex :
    ¬ (∀ it ∈ removeLocationProperty [selfParentItem],
        (∀ other ∈ [selfParentItem],
          other = it ∨ ¬ some other._id = it.parentId) →
        it.slotId = some "hideout" ∧ it.location = none) := by
  decide

/-- C10 (amended): after the `removeLocationProperty` pass, a bucket item
whose `parentId` matches the `_id` of no item of the same bucket — the item
ITSELF included in the search — has `slotId = "hideout"` and its `location`
removed, while an item whose parent is found in the bucket keeps its
`slotId` and `location` unchanged. -/
theorem removeLocationProperty_root_normalized (insuredItems : List Item)
    (i : ℕ) (it : Item) (h : insuredItems.get? i = some it) :
    (removeLocationProperty insuredItems).get? i =
      some (if ∃ x ∈ insuredItems, some x._id = it.parentId then it
            else { it with slotId := some "hideout", location := none }) := by
  unfold removeLocationProperty
  rw [List.get?_eq_getElem?] at h ⊢
  rw [List.getElem?_map, h]
  by_cases hp : ∃ x ∈ insuredItems, some x._id = it.parentId
  · rw [if_pos hp]
    obtain ⟨x, hx, hxid⟩ := hp
    have hfind : (insuredItems.find? (fun x => some x._id == it.parentId)).isSome := by
      rw [List.find?_isSome]
      exact ⟨x, hx, by simp [hxid]⟩
    rw [Option.map_some']
    obtain ⟨y, hy⟩ := Option.isSome_iff_exists.mp hfind
    rw [hy]
  · rw [if_neg hp]
    have hfind : insuredItems.find? (fun x => some x._id == it.parentId) = none := by
      rw [List.find?_eq_none]
      intro x hx
      simp only [beq_iff_eq]
      exact fun hc => hp ⟨x, hx, hc⟩
    rw [Option.map_some']
    rw [hfind]

/-- Witness for C10 (amended): a two-item bucket, a contained child whose
parent is present (kept unchanged) — evaluated through the theorem. -/
theorem removeLocationProperty_root_normalized_witness :
    (removeLocationProperty [bagItem, ammoItem]).get? 1 = some ammoItem := by
  have h := removeLocationProperty_root_normalized [bagItem, ammoItem] 1 ammoItem rfl
  rw [h]
  rw [if_pos (by decide)]

theorem createItemHashTable_id (items : List Item) (id : String) (it : Item)
    (h : createItemHashTable items id = some it) : it._id = id := by
  unfold createItemHashTable at h
  have := List.find?_some h
  simpa using this

theorem getInsuredItemDetails_id (e : String) (pre : Item)
    (c : Option IInsuredItemsData) :
    (getInsuredItemDetails e pre c)._id = pre._id := by
  unfold getInsuredItemDetails
  rw [(mergeClientFaceShield_fields c _).1,
      (mergeClientDurability_fields c _).1,
      (clearSpawnedInSession_fields _).1,
      (removeHideoutLocation_fields _).1,
      (updateSlotIdValue_fields e _).1,
      (ensureUpd_fields _).1]

theorem mem_candidates_iff (cfg : InsuranceConfig) (pmcData : PmcProfile)
    (offraidItems : List Item) (offraidInsurance : Option (List IInsuredItemsData))
    (preRaidGear : List Item) (sessionID : String) (playerDied : Bool)
    (ins : InsuredItem) (hmem : ins ∈ pmcData.InsuredItems) :
    (∃ g ∈ storeLostGearCandidates cfg pmcData offraidItems offraidInsurance
        preRaidGear sessionID playerDied,
      g.itemToReturnToPlayer._id = ins.itemId) ↔
    (∃ pre, createItemHashTable preRaidGear ins.itemId = some pre ∧
      slotBlacklisted cfg pre = false ∧
      (createItemHashTable offraidItems ins.itemId = none ∨ playerDied = true)) := by
  constructor
  · rintro ⟨g, hg, hid⟩
    unfold storeLostGearCandidates at hg
    obtain ⟨a, ha, hfa⟩ := List.mem_filterMap.mp hg
    cases hpre : createItemHashTable preRaidGear a.itemId with
    | none =>
        rw [hpre] at hfa
        exact absurd hfa (by simp)
    | some pre =>
        rw [hpre] at hfa
        dsimp only at hfa
        by_cases hbl : slotBlacklisted cfg pre = true
        · rw [if_pos hbl] at hfa
          exact absurd hfa (by simp)
        · rw [if_neg hbl] at hfa
          by_cases hcond :
              ((createItemHashTable offraidItems a.itemId).isNone || playerDied) = true
          · rw [if_pos hcond] at hfa
            have hgx := Option.some.inj hfa
            have hida : g.itemToReturnToPlayer._id = a.itemId := by
              rw [← hgx]
              rw [getInsuredItemDetails_id]
              exact createItemHashTable_id _ _ _ hpre
            have hkey : a.itemId = ins.itemId := by rw [← hida, hid]
            rw [hkey] at hpre hcond
            refine ⟨pre, hpre, by simpa using hbl, ?_⟩
            rcases Bool.or_eq_true_iff.mp hcond with h | h
            · exact Or.inl (Option.isNone_iff_eq_none.mp h)
            · exact Or.inr h
          · rw [if_neg hcond] at hfa
            exact absurd hfa (by simp)
  · rintro ⟨pre, hpre, hbl, hcond⟩
    refine ⟨{ itemToReturnToPlayer := getInsuredItemDetails pmcData.equipment pre
                (clientInsuranceFor offraidInsurance ins.itemId),
              traderId := ins.tid, sessionID := sessionID }, ?_, ?_⟩
    · unfold storeLostGearCandidates
      apply List.mem_filterMap.mpr
      refine ⟨ins, hmem, ?_⟩
      rw [hpre]
      dsimp only
      rw [if_neg (by simp [hbl])]
      rw [if_pos (by rcases hcond with h | h <;> simp [h])]
    · rw [getInsuredItemDetails_id]
      exact createItemHashTable_id _ _ _ hpre

/-- C1: an entry of the profile's `InsuredItems` yields a return candidate
in `storeLostGear`'s `equipmentToSendToPlayer` list if and only if its item
id is present in the pre-raid gear table, the pre-raid item's `slotId` is
not blacklisted, and the id is absent from the post-raid gear table or the
player died. -/
theorem storeLostGear_candidate_iff (cfg : InsuranceConfig) (pmcData : PmcProfile)
    (offraidItems : List Item) (offraidInsurance : Option (List IInsuredItemsData))
    (preRaidGear : List Item) (sessionID : String) (playerDied : Bool)
    (ins : InsuredItem) (hmem : ins ∈ pmcData.InsuredItems) :
    (∃ g ∈ storeLostGearCandidates cfg pmcData offraidItems offraidInsurance
        preRaidGear sessionID playerDied,
      g.itemToReturnToPlayer._id = ins.itemId) ↔
    (∃ pre, createItemHashTable preRaidGear ins.itemId = some pre ∧
      slotBlacklisted cfg pre = false ∧
      (createItemHashTable offraidItems ins.itemId = none ∨ playerDied = true)) :=
  mem_candidates_iff cfg pmcData offraidItems offraidInsurance preRaidGear
    sessionID playerDied ins hmem

/-- Witness for C1: one insured pocket item, present pre-raid, absent
post-raid, player survived — a candidate is produced. -/
theorem storeLostGear_candidate_iff_witness :
    insuredA ∈ pmcA.InsuredItems ∧
    ∃ g ∈ storeLostGearCandidates {} pmcA [] none preGearA "sess" false,
      g.itemToReturnToPlayer._id = insuredA.itemId :=
  ⟨by decide,
    (storeLostGear_candidate_iff {} pmcA [] none preGearA "sess" false insuredA
      (by decide)).mpr ⟨preItemA, rfl, rfl, Or.inl rfl⟩⟩

theorem addGearToSend_InsuredItems (st : Registry) (pmc : PmcProfile)
    (g : GearToSend) :
    ((addGearToSend st pmc g).2).InsuredItems
      = pmc.InsuredItems.filter
          (fun item => item.itemId != g.itemToReturnToPlayer._id) := rfl

theorem foldl_addGearToSend_profile (gears : List GearToSend) (st : Registry)
    (pmc : PmcProfile) :
    ((gears.foldl (fun s g => addGearToSend s.1 s.2 g) (st, pmc)).2).InsuredItems
      = pmc.InsuredItems.filter
          (fun e => gears.all (fun g => e.itemId != g.itemToReturnToPlayer._id)) := by
  induction gears generalizing st pmc with
  | nil => simp
  | cons g gs ih =>
      rw [List.foldl_cons]
      cases hx : addGearToSend st pmc g with
      | mk st2 pmc2 =>
          rw [ih st2 pmc2]
          have hpmc2 : pmc2.InsuredItems = pmc.InsuredItems.filter
              (fun item => item.itemId != g.itemToReturnToPlayer._id) := by
            rw [← addGearToSend_InsuredItems st pmc g, hx]
          rw [hpmc2, List.filter_filter]
          simp only [List.all_cons]
          congr 1
          funext a
          rw [Bool.and_comm]

/-- C2: a qualifying insured item is consumed: after `storeLostGear` runs,
no entry of the profile's `InsuredItems` carries its item id. -/
theorem storeLostGear_consumes_reference (cfg : InsuranceConfig) (insured : Registry)
    (pmcData : PmcProfile) (offraidItems : List Item)
    (offraidInsurance : Option (List IInsuredItemsData)) (preRaidGear : List Item)
    (sessionID : String) (playerDied : Bool) (ins : InsuredItem)
    (hmem : ins ∈ pmcData.InsuredItems)
    (hq : ∃ pre, createItemHashTable preRaidGear ins.itemId = some pre ∧
      slotBlacklisted cfg pre = false ∧
      (createItemHashTable offraidItems ins.itemId = none ∨ playerDied = true)) :
    ∀ entry ∈ ((storeLostGear cfg insured pmcData offraidItems offraidInsurance
        preRaidGear sessionID playerDied).2).InsuredItems,
      entry.itemId ≠ ins.itemId := by
  intro entry hentry
  obtain ⟨g, hg, hid⟩ :=
    (mem_candidates_iff cfg pmcData offraidItems offraidInsurance preRaidGear
      sessionID playerDied ins hmem).mpr hq
  unfold storeLostGear at hentry
  rw [foldl_addGearToSend_profile] at hentry
  have hall := (List.mem_filter.mp hentry).2
  rw [List.all_eq_true] at hall
  have h2 := hall g hg
  rw [bne_iff_ne] at h2
  rw [hid] at h2
  exact h2

/-- Witness for C2: in the one-item scenario the reference for `"a"` is
gone from the profile after `storeLostGear`. -/
theorem storeLostGear_consumes_reference_witness :
    insuredA ∉ ((storeLostGear {} [] pmcA [] none preGearA "sess"
        false).2).InsuredItems :=
  fun hmem =>
    storeLostGear_consumes_reference {} [] pmcA [] none preGearA "sess" false
      insuredA (by decide) ⟨preItemA, rfl, rfl, Or.inl rfl⟩ insuredA hmem rfl

/-- C8 counterexample: with one populated bucket for a trader whose
`dialogue` template set is missing, `sendInsuredItems` throws (the original
dereferences `dialogueTemplates.insuranceStart` on `undefined`) instead of
logging and skipping, and the registry bucket is NOT cleared. -/
theorem sendInsuredItems_missing_dialogue_cex :
    sendInsuredItems tradersND {} 0 [] pickHead 0 bucketND []
      = .error ([], bucketND) ∧
    bucketND ≠ [] :=
  ⟨rfl, by decide⟩

/-- C8 (amended): whenever some trader of the player's registry bucket list
has no dialogue template set, `sendInsuredItems` fails with a thrown
`TypeError`; the registry is left uncleared — the state at the throw still
contains a bucket for a dialogue-less trader — and no record is composed for
that trader. -/
theorem sendInsuredItems_missing_dialogue_throws
    (traders : List (String × TraderEntry)) (cfg : InsuranceConfig) (now : ℚ)
    (bonuses : List Bonus) (pick : List String → String) (draw : ℤ) :
    ∀ (bucket : List (String × List Item)) (insuranceList : List InsuranceRecord),
      (∃ p ∈ bucket, dialogueOf traders p.1 = none) →
      ∃ ins2 bucket2,
        sendInsuredItems traders cfg now bonuses pick draw bucket insuranceList
          = .error (ins2, bucket2) ∧
        ∃ q ∈ bucket2, dialogueOf traders q.1 = none := by
  intro bucket
  induction bucket with
  | nil =>
      intro insuranceList h
      obtain ⟨p, hp, _⟩ := h
      exact absurd hp (List.not_mem_nil p)
  | cons hd rest ih =>
      intro insuranceList h
      obtain ⟨tid, items⟩ := hd
      cases hd2 : dialogueOf traders tid with
      | none =>
          refine ⟨insuranceList, (tid, items) :: rest, ?_,
            ⟨(tid, items), List.mem_cons_self _ _, hd2⟩⟩
          simp only [sendInsuredItems]
          rw [hd2]
      | some d =>
          have hrest : ∃ p ∈ rest, dialogueOf traders p.1 = none := by
            obtain ⟨p, hp, hnone⟩ := h
            rcases List.mem_cons.mp hp with rfl | hp2
            · rw [hd2] at hnone
              exact absurd hnone (by simp)
            · exact ⟨p, hp2, hnone⟩
          obtain ⟨ins2, b2, heq, q, hqmem, hqnone⟩ :=
            ih (insuranceList ++
              [{ scheduledTime := getInsuranceReturnTimestamp cfg now bonuses draw,
                 traderId := tid,
                 templateId := pick d.insuranceFound,
                 items := removeLocationProperty items }]) hrest
          refine ⟨ins2, (tid, removeLocationProperty items) :: b2, ?_,
            ⟨q, List.mem_cons_of_mem _ hqmem, hqnone⟩⟩
          simp only [sendInsuredItems]
          rw [hd2]
          dsimp only
          rw [heq]

/-- Witness for C8 (amended): the concrete dialogue-less scenario fails. -/
theorem sendInsuredItems_missing_dialogue_throws_witness :
    (sendInsuredItems tradersND {} 0 [] pickHead 0 bucketND []).isOk = false := by
  obtain ⟨ins2, b2, heq, _⟩ :=
    sendInsuredItems_missing_dialogue_throws tradersND {} 0 [] pickHead 0
      bucketND [] ⟨("prapor", [preItemA]), by decide, rfl⟩
  rw [heq]
  rfl
